import Mathlib

/-!
Shallow embedding of the expense-tracker / plate-search repository
(src/plate_search.py, src/plate_search_simple.py, src/batch_plate_search.py).

Python strings are modelled as Lean `String`; `needle in hay` is modelled by
`pyIn`, `str.lower()` by `pyLower` (ASCII case folding, matching the ASCII
texts the scripts handle), `str.replace(" ", "")` by `pyReplaceSpace`,
`str.strip()` by `pyStrip`, and `str.isalnum()` by `pyIsAlnum` (ASCII letters
and digits; nonempty, as in Python).

The Selenium interaction of `search_plate_number` is modelled by an abstract
page outcome: either the waits all succeed and a result text is read, or a
`TimeoutException`, `NoSuchElementException`, or other exception is raised;
the function's own `try`/`except` structure is translated faithfully.
The batch orchestrator `search_multiple_plates` is modelled as a fold over
the input list, parameterised by the page behaviour of each browser-backed
search and by an abort schedule (a `KeyboardInterrupt` or an escaping
exception fired during the k-th browser-backed search), producing a trace:
the in-memory result list, the plate strings actually sent to the browser,
what was written to the CSV output, whether the summary was printed, and how
many times `driver.quit()` ran.  Timestamps carry no decision logic and are
omitted.
-/

set_option autoImplicit false

namespace PlateSearch

/-- `isPrefixB n h` : the char list `n` is a prefix of `h`. -/
def isPrefixB : List Char → List Char → Bool
  | [], _ => true
  | _ :: _, [] => false
  | a :: as, b :: bs => a == b && isPrefixB as bs

/-- `containsB h n` : the char list `n` occurs contiguously inside `h`. -/
def containsB : List Char → List Char → Bool
  | [], needle => needle.isEmpty
  | c :: rest, needle => isPrefixB needle (c :: rest) || containsB rest needle

/-- Python `needle in hay` on strings. -/
def pyIn (needle hay : String) : Bool :=
  containsB hay.data needle.data

/-- Python `s.lower()` (ASCII case folding). -/
def pyLower (s : String) : String :=
  ⟨s.data.map Char.toLower⟩

/-- Python `s.replace(" ", "")`: removes every space character. -/
def pyReplaceSpace (s : String) : String :=
  ⟨s.data.filter (fun c => !(c == ' '))⟩

/-- Whitespace recognised by Python `str.strip()` on the texts involved. -/
def isSpaceChar (c : Char) : Bool :=
  c == ' ' || c == '\t' || c == '\n' || c == '\r'

/-- Python `s.strip()`: drop leading and trailing whitespace. -/
def pyStrip (s : String) : String :=
  ⟨((s.data.dropWhile isSpaceChar).reverse.dropWhile isSpaceChar).reverse⟩

/-- Python `s.isalnum()` for ASCII data: nonempty and all letters/digits. -/
def pyIsAlnum (s : String) : Bool :=
  !s.data.isEmpty && s.data.all Char.isAlphanum

/-- Status values a `SearchResult` can carry. -/
inductive Status where
  | available
  | unavailable
  | unknown
  | error
  | invalid
deriving DecidableEq, Repr

/-- The dict returned by `search_plate_number` / appended by the batch. -/
structure SearchResult where
  plate_number : String
  status : Status
  message : String
deriving DecidableEq, Repr

/-- Status classification of `src/plate_search_simple.py`, lines 98-105:
`if "NOT available" in result_text or "not available" in result_text.lower()
or "unavailable" in result_text.lower(): unavailable; elif "Congratulations"
in result_text or "available" in result_text.lower(): available; elif
"already taken" in result_text.lower() or "taken" in result_text.lower():
unavailable; else unknown`. -/
def classifyResultSimple (result_text : String) : Status :=
  if pyIn "NOT available" result_text
      || pyIn "not available" (pyLower result_text)
      || pyIn "unavailable" (pyLower result_text) then
    Status.unavailable
  else if pyIn "Congratulations" result_text
      || pyIn "available" (pyLower result_text) then
    Status.available
  else if pyIn "already taken" (pyLower result_text)
      || pyIn "taken" (pyLower result_text) then
    Status.unavailable
  else
    Status.unknown

/-- Status classification of `src/plate_search.py`, lines 76-81:
`if "Congratulations" in result_text or "available" in result_text.lower():
available; elif "unavailable" in result_text.lower() or "not available" in
result_text.lower(): unavailable; else unknown`. -/
def classifyResultFull (result_text : String) : Status :=
  if pyIn "Congratulations" result_text
      || pyIn "available" (pyLower result_text) then
    Status.available
  else if pyIn "unavailable" (pyLower result_text)
      || pyIn "not available" (pyLower result_text) then
    Status.unavailable
  else
    Status.unknown

/-- `validate_plate_number` of `src/plate_search_simple.py`, lines 132-143
(also imported by the batch script): empty check, then raw-length check,
then alphanumeric check on the space-stripped string. -/
def validate_plate_number (plate_number : String) : Bool × String :=
  if plate_number = "" then
    (false, "Plate number cannot be empty")
  else if plate_number.length > 7 then
    (false, "Plate number cannot be longer than 7 characters")
  else if !(pyIsAlnum (pyReplaceSpace plate_number)) then
    (false, "Plate number should only contain letters and numbers")
  else
    (true, "Valid")

/-- Abstract outcome of the browser interaction inside one
`search_plate_number` call: either every wait succeeds and the result
element's text is read, or one of the exceptions caught by the function's
`except` clauses is raised. -/
inductive PageOutcome where
  | resultText (raw : String)
  | timeout
  | noSuchElement (desc : String)
  | unexpected (desc : String)
deriving DecidableEq, Repr

/-- `search_plate_number` of `src/plate_search_simple.py`, lines 44-130:
on success the result element's text is stripped and classified; each caught
exception is converted into a status-`error` result with the corresponding
message.  The function never propagates an exception to its caller. -/
def search_plate_number (outcome : PageOutcome) (plate_number : String) :
    SearchResult :=
  match outcome with
  | PageOutcome.resultText raw =>
    let result_text := pyStrip raw
    { plate_number := plate_number
      status := classifyResultSimple result_text
      message := result_text }
  | PageOutcome.timeout =>
    { plate_number := plate_number
      status := Status.error
      message := "Timeout waiting for page elements to load. The website might be slow or the page structure has changed." }
  | PageOutcome.noSuchElement e =>
    { plate_number := plate_number
      status := Status.error
      message := "Element not found: " ++ e ++ ". The website structure might have changed." }
  | PageOutcome.unexpected e =>
    { plate_number := plate_number
      status := Status.error
      message := "Unexpected error: " ++ e }

/-- Abort schedule for a batch run: no abort, a `KeyboardInterrupt` raised
during the k-th (0-based) browser-backed search, or an exception escaping
during the k-th browser-backed search. -/
inductive Abort where
  | noAbort
  | interrupt (k : Nat)
  | exception (k : Nat) (desc : String)
deriving DecidableEq, Repr

/-- Whether the abort fires on the browser-backed search numbered `n`. -/
def Abort.firesAt : Abort → Nat → Bool
  | Abort.noAbort, _ => false
  | Abort.interrupt k, n => n == k
  | Abort.exception k _, n => n == k

/-- The `for` loop of `search_multiple_plates` (`src/batch_plate_search.py`,
lines 28-65): validate each plate; on failure append an `invalid` record and
continue without touching the browser; on success run one browser-backed
search and append its result.  `calls` counts browser-backed searches made
so far; if the abort schedule fires on a search, the loop stops there with
no result recorded for that plate.  Returns (results, plates actually sent
to the browser, completed-normally flag). -/
def batchLoop (drv : String → PageOutcome) (abort : Abort) :
    List String → Nat → List SearchResult × List String × Bool
  | [], _ => ([], [], true)
  | p :: rest, calls =>
    if (validate_plate_number p).1 then
      if abort.firesAt calls then
        ([], [p], false)
      else
        let out := batchLoop drv abort rest (calls + 1)
        (search_plate_number (drv p) p :: out.1, p :: out.2.1, out.2.2)
    else
      let out := batchLoop drv abort rest calls
      (⟨p, Status.invalid, (validate_plate_number p).2⟩ :: out.1,
        out.2.1, out.2.2)

/-- What one input plate contributes to a completed batch run. -/
def resultFor (drv : String → PageOutcome) (p : String) : SearchResult :=
  if (validate_plate_number p).1 then
    search_plate_number (drv p) p
  else
    ⟨p, Status.invalid, (validate_plate_number p).2⟩

/-- Observable trace of one `search_multiple_plates` call. -/
structure BatchTrace where
  results : List SearchResult
  driverCalls : List String
  savedToFile : Option (List SearchResult)
  summaryPrinted : Bool
  quitCount : Nat
deriving DecidableEq, Repr

/-- `search_multiple_plates` of `src/batch_plate_search.py`, lines 13-81:
the loop runs inside `try`; `save_results_to_csv` (when an output file was
requested) and `print_summary` run after the loop, still inside `try`, so
they are reached only when the loop completes normally; `except
KeyboardInterrupt` and `except Exception` only print; `finally` calls
`driver.quit()` exactly once (the driver was acquired before the loop). -/
def search_multiple_plates (plate_numbers : List String)
    (output_file : Bool) (drv : String → PageOutcome) (abort : Abort) :
    BatchTrace :=
  let out := batchLoop drv abort plate_numbers 0
  { results := out.1
    driverCalls := out.2.1
    savedToFile :=
      if out.2.2 && output_file then some out.1 else Option.none
    summaryPrinted := out.2.2
    quitCount := 1 }

/-! ### Helper lemmas -/

theorem isPrefixB_append {n h : List Char} (hp : isPrefixB n h = true)
    (t : List Char) : isPrefixB n (h ++ t) = true := by
  induction n generalizing h with
  | nil => rfl
  | cons a as ih =>
    cases h with
    | nil => simp [isPrefixB] at hp
    | cons b bs =>
      simp only [isPrefixB, Bool.and_eq_true] at hp
      simp only [List.cons_append, isPrefixB, Bool.and_eq_true]
      exact ⟨hp.1, ih hp.2⟩

theorem containsB_of_isPrefixB {n h : List Char}
    (hp : isPrefixB n h = true) : containsB h n = true := by
  cases h with
  | nil =>
    cases n with
    | nil => rfl
    | cons a as => simp [isPrefixB] at hp
  | cons c rest => simp [containsB, hp]

theorem pyIn_element_not_found (e : String) :
    pyIn "Element not found"
      ("Element not found: " ++ e ++ ". The website structure might have changed.")
      = true := by
  unfold pyIn
  have hd : ("Element not found: " ++ e
        ++ ". The website structure might have changed.").data
      = "Element not found: ".data
        ++ (e.data ++ ". The website structure might have changed.".data) := by
    simp [String.data_append, List.append_assoc]
  rw [hd]
  exact containsB_of_isPrefixB (isPrefixB_append (by decide) _)

theorem batchLoop_noAbort (drv : String → PageOutcome)
    (plates : List String) (calls : Nat) :
    batchLoop drv Abort.noAbort plates calls =
      (plates.map (resultFor drv),
        plates.filter (fun p => (validate_plate_number p).1),
        true) := by
  induction plates generalizing calls with
  | nil => rfl
  | cons p rest ih =>
    by_cases hv : (validate_plate_number p).1 = true
    · simp [batchLoop, hv, Abort.firesAt, ih, resultFor, List.filter_cons]
    · simp [batchLoop, hv, ih, resultFor, List.filter_cons]

theorem batchLoop_results_initial_segment (drv : String → PageOutcome)
    (abort : Abort) (plates : List String) (calls : Nat) :
    ∃ done rest, plates = done ++ rest ∧
      (batchLoop drv abort plates calls).1 = done.map (resultFor drv) := by
  induction plates generalizing calls with
  | nil => exact ⟨[], [], rfl, rfl⟩
  | cons p ps ih =>
    by_cases hv : (validate_plate_number p).1 = true
    · by_cases hf : abort.firesAt calls = true
      · exact ⟨[], p :: ps, rfl, by simp [batchLoop, hv, hf]⟩
      · obtain ⟨done, rest, hps, hres⟩ := ih (calls + 1)
        refine ⟨p :: done, rest, by simp [hps], ?_⟩
        simp [batchLoop, hv, hf, hres, resultFor]
    · obtain ⟨done, rest, hps, hres⟩ := ih calls
      refine ⟨p :: done, rest, by simp [hps], ?_⟩
      simp [batchLoop, hv, hres, resultFor]

theorem resultFor_plate_number (drv : String → PageOutcome) (p : String) :
    (resultFor drv p).plate_number = p := by
  unfold resultFor
  split
  · cases drv p <;> rfl
  · rfl

/-! ### Claim theorems -/

/-- Claim C1, counterexample: the classifier of `src/plate_search.py`
checks the available keywords first, so the input
"Sorry, ABC123 is not available" — which contains "not available"
case-insensitively — is classified `available`, refuting the claim that the
cited classifier code always returns `unavailable` on such texts and that
the unavailable rule is evaluated first. -/
theorem notAvailable_misclassified_by_full_variant :
    pyIn "not available" (pyLower "Sorry, ABC123 is not available") = true
    ∧ classifyResultFull "Sorry, ABC123 is not available" = Status.available
    ∧ Status.available ≠ Status.unavailable := by
  decide

/-- Claim C1, amended: in the classifier of `src/plate_search_simple.py`
(the ordering the spec adopts), every result text containing
"not available" or "unavailable" case-insensitively, or "NOT available"
exactly, is classified `unavailable`, and this rule is evaluated first; in
particular "Sorry, ABC123 is not available" is classified `unavailable`
there.  The `src/plate_search.py` variant instead classifies that input
`available`. -/
theorem unavailable_keywords_first_in_simple_variant :
    (∀ s : String,
        (pyIn "not available" (pyLower s) || pyIn "unavailable" (pyLower s)
          || pyIn "NOT available" s) = true →
        classifyResultSimple s = Status.unavailable)
    ∧ classifyResultSimple "Sorry, ABC123 is not available"
        = Status.unavailable
    ∧ classifyResultFull "Sorry, ABC123 is not available"
        = Status.available := by
  refine ⟨?_, by decide, by decide⟩
  intro s hs
  unfold classifyResultSimple
  have hcond : (pyIn "NOT available" s || pyIn "not available" (pyLower s)
      || pyIn "unavailable" (pyLower s)) = true := by
    simp only [Bool.or_eq_true] at hs
    rcases hs with (h | h) | h <;> simp [h]
  simp [hcond]

/-- Claim C1, witness: the amended rule applied to the spec's own example
input. -/
theorem unavailable_keywords_first_witness :
    (pyIn "not available" (pyLower "Sorry, ABC123 is not available")
      || pyIn "unavailable" (pyLower "Sorry, ABC123 is not available")
      || pyIn "NOT available" "Sorry, ABC123 is not available") = true
    ∧ classifyResultSimple "Sorry, ABC123 is not available"
        = Status.unavailable :=
  ⟨by decide,
    unavailable_keywords_first_in_simple_variant.1
      "Sorry, ABC123 is not available" (by decide)⟩

/-- Claim C2, counterexample: in `src/plate_search_simple.py` the
taken-check sits AFTER the generic available check, so the text
"Plate taken, similar plates available" — which contains "taken" and none
of the rule-1 unavailable keywords — is classified `available`, not
`unavailable`; moreover `src/plate_search.py` has no taken rule at all and
classifies "ABC123 is already taken" as `unknown`. -/
theorem taken_after_available_check_cex :
    pyIn "taken" (pyLower "Plate taken, similar plates available") = true
    ∧ pyIn "NOT available" "Plate taken, similar plates available" = false
    ∧ pyIn "not available"
        (pyLower "Plate taken, similar plates available") = false
    ∧ pyIn "unavailable"
        (pyLower "Plate taken, similar plates available") = false
    ∧ classifyResultSimple "Plate taken, similar plates available"
        = Status.available
    ∧ classifyResultFull "ABC123 is already taken" = Status.unknown := by
  decide

/-- Claim C2, amended: in `src/plate_search_simple.py`, a result text that
contains "already taken" or "taken" case-insensitively, none of the rule-1
unavailable keywords, and also none of the available keywords (exact
"Congratulations" or case-insensitive "available") is classified
`unavailable`; the taken-check is evaluated AFTER the generic available
check, not before it.  The input "ABC123 is already taken" is classified
`unavailable` by that variant (and `unknown` by `src/plate_search.py`,
which has no taken rule). -/
theorem taken_rule_in_simple_variant :
    (∀ s : String,
        pyIn "taken" (pyLower s) = true →
        (pyIn "NOT available" s || pyIn "not available" (pyLower s)
          || pyIn "unavailable" (pyLower s)) = false →
        (pyIn "Congratulations" s || pyIn "available" (pyLower s)) = false →
        classifyResultSimple s = Status.unavailable)
    ∧ classifyResultSimple "ABC123 is already taken" = Status.unavailable
    ∧ classifyResultFull "ABC123 is already taken" = Status.unknown := by
  refine ⟨?_, by decide, by decide⟩
  intro s h1 h2 h3
  unfold classifyResultSimple
  simp [h1, h2, h3]

/-- Claim C2, witness: the amended rule applied to the spec's own example
input. -/
theorem taken_rule_witness :
    pyIn "taken" (pyLower "ABC123 is already taken") = true
    ∧ classifyResultSimple "ABC123 is already taken" = Status.unavailable :=
  ⟨by decide,
    taken_rule_in_simple_variant.1 "ABC123 is already taken"
      (by decide) (by decide) (by decide)⟩

/-- Claim C3: the classification logic of the two interaction variants is
inconsistent — there is a result text on which the substring-check sequence
of `src/plate_search_simple.py` and that of `src/plate_search.py` assign
different statuses, so the two embedded classifier functions are not
equal. -/
theorem classifier_variants_disagree :
    (∃ s : String, classifyResultSimple s ≠ classifyResultFull s)
    ∧ classifyResultSimple ≠ classifyResultFull := by
  refine ⟨⟨"Sorry, ABC123 is not available", by decide⟩, ?_⟩
  intro h
  have h2 := congrFun h "Sorry, ABC123 is not available"
  exact absurd h2 (by decide)

/-- Claim C4, counterexample: `validate_plate_number` checks the RAW length
before any whitespace stripping and returns no cleaned string, so the batch
input " abc123 " (raw length 8) is rejected for length instead of
validating to "ABC123", and the accepted "XY Z9" is sent to the browser
with its interior space intact ("XY Z9", not "XYZ9"): in the claim's batch
scenario the only browser-backed query is "XY Z9". -/
theorem validator_length_before_strip_cex :
    validate_plate_number " abc123 "
      = (false, "Plate number cannot be longer than 7 characters")
    ∧ (search_multiple_plates [" abc123 ", "TOOLONGPLATE", "XY Z9"] true
        (fun _ => PageOutcome.timeout) Abort.noAbort).driverCalls
      = ["XY Z9"]
    ∧ ((search_multiple_plates [" abc123 ", "TOOLONGPLATE", "XY Z9"] true
        (fun _ => PageOutcome.timeout) Abort.noAbort).results.map
          (fun r => r.status))
      = [Status.invalid, Status.invalid, Status.error] := by
  decide

/-- Claim C4, amended: the Validator applies its rules in the order: reject
empty; reject if the RAW length (no whitespace stripped) exceeds 7; reject
if the space-stripped remainder is not purely alphanumeric (or is empty).
It returns only a validity flag and a message — no cleaned string — and the
batch proceeds with the original input unchanged.  Hence for the batch
input [" abc123 ", "TOOLONGPLATE", "XY Z9"], the first is rejected for
length (raw length 8), the second is rejected for length, and the third is
accepted and searched as "XY Z9" with its interior space kept.  (Only the
single-plate CLI of plate_search_simple.py strips spaces and upper-cases,
and it does so before calling the Validator.) -/
theorem validator_order_and_batch_scenario :
    (∀ s : String, s ≠ "" → s.length > 7 →
        validate_plate_number s
          = (false, "Plate number cannot be longer than 7 characters"))
    ∧ (∀ s : String, s ≠ "" → ¬(s.length > 7) →
        pyIsAlnum (pyReplaceSpace s) = true →
        validate_plate_number s = (true, "Valid"))
    ∧ (∀ drv : String → PageOutcome,
        (search_multiple_plates [" abc123 ", "TOOLONGPLATE", "XY Z9"] false
          drv Abort.noAbort).driverCalls = ["XY Z9"]
        ∧ (search_multiple_plates [" abc123 ", "TOOLONGPLATE", "XY Z9"] false
            drv Abort.noAbort).results
          = [⟨" abc123 ", Status.invalid,
              "Plate number cannot be longer than 7 characters"⟩,
             ⟨"TOOLONGPLATE", Status.invalid,
              "Plate number cannot be longer than 7 characters"⟩,
             search_plate_number (drv "XY Z9") "XY Z9"]) := by
  refine ⟨?_, ?_, ?_⟩
  · intro s h1 h2
    simp [validate_plate_number, h1, h2]
  · intro s h1 h2 h3
    simp [validate_plate_number, h1, h2, h3]
  · intro drv
    have h1 : (validate_plate_number " abc123 ").1 = false := by decide
    have h2 : (validate_plate_number "TOOLONGPLATE").1 = false := by decide
    have h3 : (validate_plate_number "XY Z9").1 = true := by decide
    constructor
    · simp [search_multiple_plates, batchLoop_noAbort, List.filter_cons,
        h1, h2, h3]
    · simp [search_multiple_plates, batchLoop_noAbort, resultFor,
        h1, h2, h3]
      decide

/-- Claim C4, witness: the amended length rule applied to the scenario's
first input. -/
theorem validator_order_witness :
    " abc123 " ≠ "" ∧ " abc123 ".length > 7
    ∧ validate_plate_number " abc123 "
      = (false, "Plate number cannot be longer than 7 characters") :=
  ⟨by decide, by decide,
    validator_order_and_batch_scenario.1 " abc123 " (by decide) (by decide)⟩

/-- Claim C5, counterexample: a `KeyboardInterrupt` during the second
browser-backed search of a three-plate batch with a requested CSV output:
the session is released once and one result had been collected, but nothing
is written to the output file and no summary is printed —
`save_results_to_csv` and `print_summary` sit inside the `try` after the
loop, so an interrupted batch does NOT persist the results collected so
far. -/
theorem interrupt_does_not_persist_cex :
    ((search_multiple_plates ["ABC123", "DEF456", "GHI789"] true
        (fun _ => PageOutcome.resultText "Congratulations! available")
        (Abort.interrupt 1)).results).length = 1
    ∧ (search_multiple_plates ["ABC123", "DEF456", "GHI789"] true
        (fun _ => PageOutcome.resultText "Congratulations! available")
        (Abort.interrupt 1)).savedToFile = Option.none
    ∧ (search_multiple_plates ["ABC123", "DEF456", "GHI789"] true
        (fun _ => PageOutcome.resultText "Congratulations! available")
        (Abort.interrupt 1)).summaryPrinted = false
    ∧ (search_multiple_plates ["ABC123", "DEF456", "GHI789"] true
        (fun _ => PageOutcome.resultText "Congratulations! available")
        (Abort.interrupt 1)).quitCount = 1 := by
  decide

/-- Claim C5, amended: on every termination of a batch run — normal
completion, an exception, or a user interruption mid-batch — the browser
session is released exactly once (`driver.quit()` in the `finally` block);
the results collected before an abort remain in the in-memory list (the
result list is always the processed initial segment of the input), but the
CSV output is written (and the summary printed) only when the loop
completes normally: on interruption or exception nothing is persisted to
the requested output. -/
theorem session_release_and_abort_trace :
    ∀ (plates : List String) (out : Bool) (drv : String → PageOutcome)
      (abort : Abort),
      (search_multiple_plates plates out drv abort).quitCount = 1
      ∧ (search_multiple_plates plates out drv abort).savedToFile
        = (if (search_multiple_plates plates out drv abort).summaryPrinted
              && out
            then some (search_multiple_plates plates out drv abort).results
            else Option.none)
      ∧ ∃ done rest, plates = done ++ rest
          ∧ (search_multiple_plates plates out drv abort).results
            = done.map (resultFor drv) := by
  intro plates out drv abort
  refine ⟨rfl, rfl, ?_⟩
  obtain ⟨done, rest, h1, h2⟩ :=
    batchLoop_results_initial_segment drv abort plates 0
  exact ⟨done, rest, h1, h2⟩

/-- Claim C6: a completed batch run (no abort) produces exactly one result
per input plate, in input order, whatever the individual outcomes. -/
theorem batch_preserves_count_and_order :
    ∀ (plates : List String) (out : Bool) (drv : String → PageOutcome),
      ((search_multiple_plates plates out drv Abort.noAbort).results).length
        = plates.length
      ∧ (search_multiple_plates plates out drv Abort.noAbort).results.map
          (fun r => r.plate_number) = plates := by
  intro plates out drv
  have h : (search_multiple_plates plates out drv Abort.noAbort).results
      = plates.map (resultFor drv) := by
    simp [search_multiple_plates, batchLoop_noAbort]
  rw [h]
  constructor
  · simp
  · rw [List.map_map]
    have hfun : ((fun r : SearchResult => r.plate_number) ∘ resultFor drv)
        = id := by
      funext p
      exact resultFor_plate_number drv p
    rw [hfun, List.map_id]

/-- Claim C7: every string whose space-stripped form is longer than 7
characters is rejected by the Validator with the length message (since the
raw string is then even longer); every string whose space-stripped form
contains a non-alphanumeric character is rejected; and an input rejected by
the Validator is never sent to the browser. -/
theorem validator_rejects_long_and_nonalnum :
    (∀ s : String, (pyReplaceSpace s).length > 7 →
        validate_plate_number s
          = (false, "Plate number cannot be longer than 7 characters"))
    ∧ (∀ (s : String) (c : Char), c ∈ (pyReplaceSpace s).data →
        Char.isAlphanum c = false →
        (validate_plate_number s).1 = false)
    ∧ (∀ (s : String) (out : Bool) (drv : String → PageOutcome),
        (validate_plate_number s).1 = false →
        (search_multiple_plates [s] out drv Abort.noAbort).driverCalls
          = []) := by
  refine ⟨?_, ?_, ?_⟩
  · intro s h
    have hle : (pyReplaceSpace s).length ≤ s.length := by
      show (s.data.filter (fun c => !(c == ' '))).length ≤ s.data.length
      exact List.length_filter_le _ _
    have hlen : s.length > 7 := lt_of_lt_of_le h hle
    have hne : s ≠ "" := by
      intro he
      subst he
      exact absurd h (by decide)
    simp [validate_plate_number, hne, hlen]
  · intro s c hc hcna
    have halnum : pyIsAlnum (pyReplaceSpace s) = false := by
      cases h' : (pyReplaceSpace s).data.all Char.isAlphanum
      · simp [pyIsAlnum, h']
      · exfalso
        have := List.all_eq_true.mp h' c hc
        rw [hcna] at this
        exact Bool.false_ne_true this
    have hne : s ≠ "" := by
      intro he
      subst he
      have hnil : (pyReplaceSpace "").data = [] := rfl
      rw [hnil] at hc
      exact List.not_mem_nil c hc
    by_cases hlen : s.length > 7
    · simp [validate_plate_number, hne, hlen]
    · simp [validate_plate_number, hne, hlen, halnum]
  · intro s out drv h
    simp [search_multiple_plates, batchLoop_noAbort, List.filter_cons, h]

/-- Claim C7, witness: the rules applied to concrete rejected inputs. -/
theorem validator_rejects_witness :
    (pyReplaceSpace "AB CD EF GH").length > 7
    ∧ validate_plate_number "AB CD EF GH"
      = (false, "Plate number cannot be longer than 7 characters")
    ∧ (validate_plate_number "AB!12").1 = false
    ∧ (search_multiple_plates ["AB!12"] false
        (fun _ => PageOutcome.timeout) Abort.noAbort).driverCalls = [] :=
  ⟨by decide,
    validator_rejects_long_and_nonalnum.1 "AB CD EF GH" (by decide),
    validator_rejects_long_and_nonalnum.2.1 "AB!12" (Char.ofNat 33)
      (by decide) (by decide),
    validator_rejects_long_and_nonalnum.2.2 "AB!12" false
      (fun _ => PageOutcome.timeout) (by decide)⟩

/-- Claim C8: the Interaction Driver is a total function into
`SearchResult` — every caught exception becomes a status-`error` result: a
timeout yields a message naming the timeout, a missing page element yields
a message naming the missing element, and any other failure yields the
underlying cause description; each valid plate is queried exactly once (no
retry) and a failed query does not stop the batch, which still produces one
result per input. -/
theorem driver_error_handling_total :
    ∀ plate e : String,
      (search_plate_number PageOutcome.timeout plate).status = Status.error
      ∧ pyIn "Timeout"
          (search_plate_number PageOutcome.timeout plate).message = true
      ∧ (search_plate_number (PageOutcome.noSuchElement e) plate).status
        = Status.error
      ∧ pyIn "Element not found"
          (search_plate_number (PageOutcome.noSuchElement e) plate).message
        = true
      ∧ (search_plate_number (PageOutcome.unexpected e) plate).status
        = Status.error
      ∧ (search_plate_number (PageOutcome.unexpected e) plate).message
        = "Unexpected error: " ++ e
      ∧ (∀ (plates : List String) (drv : String → PageOutcome) (out : Bool),
          ((search_multiple_plates plates out drv Abort.noAbort).results).length
            = plates.length
          ∧ (search_multiple_plates plates out drv Abort.noAbort).driverCalls
            = plates.filter (fun q => (validate_plate_number q).1)) := by
  intro plate e
  refine ⟨rfl, ?_, rfl, ?_, rfl, rfl, ?_⟩
  · show pyIn "Timeout"
        "Timeout waiting for page elements to load. The website might be slow or the page structure has changed."
      = true
    decide
  · exact pyIn_element_not_found e
  · intro plates drv out
    constructor
    · simp [search_multiple_plates, batchLoop_noAbort]
    · simp [search_multiple_plates, batchLoop_noAbort]

/-- Claim C9, counterexample: the "Congratulations" check is
case-SENSITIVE in both variants: the text "CONGRATULATIONS" contains
"congratulations" case-insensitively and none of the unavailable/taken
keywords, yet both classifiers return `unknown`, not `available`. -/
theorem congratulations_case_sensitive_cex :
    pyIn "congratulations" (pyLower "CONGRATULATIONS") = true
    ∧ pyIn "taken" (pyLower "CONGRATULATIONS") = false
    ∧ pyIn "NOT available" "CONGRATULATIONS" = false
    ∧ pyIn "not available" (pyLower "CONGRATULATIONS") = false
    ∧ pyIn "unavailable" (pyLower "CONGRATULATIONS") = false
    ∧ classifyResultSimple "CONGRATULATIONS" = Status.unknown
    ∧ classifyResultFull "CONGRATULATIONS" = Status.unknown := by
  decide

/-- Claim C9, amended: the classifier of plate_search_simple.py is total
with codomain available / unavailable / unknown, and its matching is
case-insensitive for the keywords "not available", "unavailable",
"available", "already taken" and "taken", but the "Congratulations" check
is exact-case (and the exact-case "NOT available" check is subsumed by the
case-insensitive "not available" check).  A text containing "available"
case-insensitively or "Congratulations" exactly, and none of the rule-1
unavailable keywords, is classified `available`; a text containing no
recognized keyword — e.g. "System busy, try later" — is classified
`unknown`; a text containing "congratulations" only in a different letter
case and no other keyword, such as "CONGRATULATIONS", is classified
`unknown`, not `available`. -/
theorem classifier_case_folding_and_totality :
    (∀ s : String,
        classifyResultSimple s = Status.available
        ∨ classifyResultSimple s = Status.unavailable
        ∨ classifyResultSimple s = Status.unknown)
    ∧ (∀ s : String,
        (pyIn "Congratulations" s || pyIn "available" (pyLower s)) = true →
        (pyIn "NOT available" s || pyIn "not available" (pyLower s)
          || pyIn "unavailable" (pyLower s)) = false →
        classifyResultSimple s = Status.available)
    ∧ (∀ s : String,
        pyIn "NOT available" s = false →
        pyIn "not available" (pyLower s) = false →
        pyIn "unavailable" (pyLower s) = false →
        pyIn "Congratulations" s = false →
        pyIn "available" (pyLower s) = false →
        pyIn "already taken" (pyLower s) = false →
        pyIn "taken" (pyLower s) = false →
        classifyResultSimple s = Status.unknown)
    ∧ classifyResultSimple "System busy, try later" = Status.unknown
    ∧ classifyResultSimple "CONGRATULATIONS" = Status.unknown := by
  refine ⟨?_, ?_, ?_, by decide, by decide⟩
  · intro s
    unfold classifyResultSimple
    repeat' split
    · right; left; rfl
    · left; rfl
    · right; left; rfl
    · right; right; rfl
  · intro s h1 h2
    unfold classifyResultSimple
    simp [h1, h2]
  · intro s ha hb hc hd he hf hg
    unfold classifyResultSimple
    simp [ha, hb, hc, hd, he, hf, hg]

/-- Claim C9, witness: the available rule applied to the spec's example
"Congratulations! ABC123 is available". -/
theorem classifier_case_folding_witness :
    (pyIn "Congratulations" "Congratulations! ABC123 is available"
      || pyIn "available"
          (pyLower "Congratulations! ABC123 is available")) = true
    ∧ classifyResultSimple "Congratulations! ABC123 is available"
      = Status.available :=
  ⟨by decide,
    classifier_case_folding_and_totality.2.1
      "Congratulations! ABC123 is available" (by decide) (by decide)⟩

/-- Claim C10: in a completed batch run, an input that fails validation
contributes exactly one record with status `invalid` carrying the
validation message, in its input position; it is never sent to the browser
(the driver-call list is unaffected by it); and the inputs after it are
still processed normally. -/
theorem invalid_input_skips_browser :
    ∀ (drv : String → PageOutcome) (out : Bool) (done : List String)
      (p : String) (rest : List String),
      (validate_plate_number p).1 = false →
      (search_multiple_plates (done ++ p :: rest) out drv
          Abort.noAbort).results
        = done.map (resultFor drv)
          ++ ⟨p, Status.invalid, (validate_plate_number p).2⟩
            :: rest.map (resultFor drv)
      ∧ (search_multiple_plates (done ++ p :: rest) out drv
          Abort.noAbort).driverCalls
        = done.filter (fun q => (validate_plate_number q).1)
          ++ rest.filter (fun q => (validate_plate_number q).1) := by
  intro drv out done p rest hp
  constructor
  · have hinv : resultFor drv p
        = ⟨p, Status.invalid, (validate_plate_number p).2⟩ := by
      simp [resultFor, hp]
    simp [search_multiple_plates, batchLoop_noAbort, hinv]
  · simp [search_multiple_plates, batchLoop_noAbort, List.filter_append,
      List.filter_cons, hp]

/-- Claim C10, witness: a batch with an over-long middle input — the
invalid marker is recorded in place and only the valid neighbours reach
the browser. -/
theorem invalid_input_skips_browser_witness :
    (validate_plate_number "WAY TOO LONG").1 = false
    ∧ (search_multiple_plates (["ABC123"] ++ "WAY TOO LONG" :: ["XY9"])
        false (fun _ => PageOutcome.timeout) Abort.noAbort).results
      = ["ABC123"].map (resultFor (fun _ => PageOutcome.timeout))
        ++ ⟨"WAY TOO LONG", Status.invalid,
            (validate_plate_number "WAY TOO LONG").2⟩
          :: ["XY9"].map (resultFor (fun _ => PageOutcome.timeout))
    ∧ (search_multiple_plates (["ABC123"] ++ "WAY TOO LONG" :: ["XY9"])
        false (fun _ => PageOutcome.timeout) Abort.noAbort).driverCalls
      = ["ABC123"].filter (fun q => (validate_plate_number q).1)
        ++ ["XY9"].filter (fun q => (validate_plate_number q).1) :=
  ⟨by decide,
    (invalid_input_skips_browser (fun _ => PageOutcome.timeout) false
      ["ABC123"] "WAY TOO LONG" ["XY9"] (by decide)).1,
    (invalid_input_skips_browser (fun _ => PageOutcome.timeout) false
      ["ABC123"] "WAY TOO LONG" ["XY9"] (by decide)).2⟩

end PlateSearch
